import Mathlib

/-
Verification of the warden HTTP probe runner (request.go, main.go).

The development shallowly embeds the two core components:

* the request-document parser (`newRequest` in request.go), embedded as
  `scanFM` / `bodyLoop` / `splitDoc` over `List Char`;
* the dispatch engine (`send` in main.go) together with the assertion
  helpers (`assertion.Validate`, `assertion.Find` in request.go) and the
  result formatter (`result.String` in main.go), embedded as `send`,
  `runAssertions`, `Validate` and `resultString`.

External effects (the HTTP transport, the wall clock, the regexp engine)
are represented by explicit oracles: an `httpOutcome` value describing how
the HTTP call went, a `compiles : String → Bool` oracle describing which
patterns `regexp.Compile` accepts, and a `finds : String → String → Bool`
oracle describing which pattern/content pairs `regexp.Find` finds.
-/

namespace Warden

/-- Error outcomes of the scanning loop in `newRequest` (request.go:81-124).

* `invalidFileFormat` — the `Peek(3)` after a line-ending byte returned an
  error (fewer than three bytes left before end of stream); the code
  returns `fmt.Errorf("invalid file format")` (request.go:93-97).
* `peekError` — one of the two `Peek(1)` calls after the three dashes
  returned an error (end of stream); the code returns that raw error
  (request.go:101-103 and 108-110).
* `noFrontMatter` — the loop ended without ever finding a divider; the
  code returns `fmt.Errorf("no front-matter found")` (request.go:122-124).
-/
inductive ParseErr
  | invalidFileFormat
  | peekError
  | noFrontMatter
deriving DecidableEq, Repr

/-- Outcome of the byte-splitting phase of `newRequest`: either the
front-matter bytes and the body bytes (the contents of
`writerFrontMatter` and `writerBody`), or one of the errors returned from
inside the scanning loop. -/
inductive SplitResult
  | ok (fm body : List Char)
  | error (e : ParseErr)
deriving DecidableEq, Repr

/-- The scanning loop of `newRequest` after `found` has become true
(request.go:81-120 with `found = true`): every remaining byte is read and
written to `writerBody`, and no divider check runs because the check is
guarded by `!found` (request.go:91). -/
def bodyLoop : List Char → List Char → List Char
  | body, [] => body
  | body, b :: rest => bodyLoop (body ++ [b]) rest

/-- One `Peek(1)`/`Discard(1)` step after the divider dashes
(request.go:101-107, repeated at request.go:108-114): the peek fails at
end of stream and the code returns its error; otherwise a `\r` or `\n`
byte is discarded and any other byte is left in place (`Peek` does not
advance the reader). -/
def skipOneCrlf : List Char → Option (List Char)
  | [] => none
  | d :: rest => some (if d = '\r' ∨ d = '\n' then rest else d :: rest)

/-- The two consecutive `Peek(1)`/`Discard(1)` steps that follow
`reader.Discard(3)` (request.go:100-114); `none` when either peek hit end
of stream, in which case `newRequest` returns that peek error. -/
def afterDivider (l : List Char) : Option (List Char) :=
  match skipOneCrlf l with
  | none => none
  | some l2 => skipOneCrlf l2

/-- The scanning loop of `newRequest` while `found` is still false
(request.go:81-120).  The first argument is the accumulated content of
`writerFrontMatter`, the second is the unread remainder of the stream.

Each byte `b` is read and written to the front-matter writer
(request.go:88).  If `b` is `\n` or `\r` (request.go:91) the loop peeks at
the next three bytes: a short stream fails the peek and aborts with
"invalid file format" (request.go:93-97, the `rest.length < 3` test
here); if the three bytes are `-`, `-`, `-` (the `rest.take 3` test) they
are discarded (`rest.drop 3`), the two skip steps of `afterDivider` run,
and then `found` is set and the writer switches to `writerBody`
(request.go:115-116), which is `bodyLoop` here.  A non-matching peek
leaves the stream untouched and scanning continues. -/
def scanFM : List Char → List Char → SplitResult
  | _, [] => .error .noFrontMatter
  | fm, b :: rest =>
    if b = '\n' ∨ b = '\r' then
      if rest.length < 3 then .error .invalidFileFormat
      else if rest.take 3 = ['-', '-', '-'] then
        match afterDivider (rest.drop 3) with
        | none => .error .peekError
        | some rest5 => .ok (fm ++ [b]) (bodyLoop [] rest5)
      else scanFM (fm ++ [b]) rest
    else scanFM (fm ++ [b]) rest

/-- The byte-splitting part of `newRequest` (request.go:72-124): scan the
whole stream starting with an empty front-matter writer, an empty body
writer and `found = false`. -/
def splitDoc (l : List Char) : SplitResult :=
  scanFM [] l

/-- Decidable check used to describe streams on which the scanning loop
can never trip over a divider or a short peek: a suffix starting with a
line-ending byte must have at least three further bytes, and those three
bytes must not be three dashes. -/
def goodTailB : List Char → Bool
  | [] => true
  | b :: t =>
    if b = '\n' ∨ b = '\r' then decide (3 ≤ t.length) && decide (t.take 3 ≠ ['-', '-', '-'])
    else true

/-- The `request` struct (request.go:15-24).  `header` and `assertion`
are string types in the source (request.go:28, request.go:52), so
`Headers` and `Assertions` are lists of strings here.  `Timeout` is an
`int` interpreted as milliseconds (main.go:142). -/
structure request where
  Name : String
  URL : String
  Method : String
  Timeout : Int
  Headers : List String
  Assertions : List String
  Body : String
deriving DecidableEq, Repr

/-- The outgoing HTTP call as handed to `client.Do` by `send`
(main.go:121-138): `http.NewRequest(r.Method, r.URL, strings.NewReader(r.Body))`
is built at main.go:122-123 and no statement in `send` (or anywhere else
in the program) writes any element of `r.Headers` into the request's
header map — the only use of `r.Headers` is the debug log loop at
main.go:169-171.  Hence `AttachedHeaders` is the empty list. -/
structure httpCall where
  Method : String
  URL : String
  BodyPayload : String
  AttachedHeaders : List String
deriving DecidableEq, Repr

/-- How `send` builds the outgoing call from a request (main.go:122-123),
with `AttachedHeaders` empty because no header is ever set on it. -/
def buildCall (r : request) : httpCall :=
  { Method := r.Method, URL := r.URL, BodyPayload := r.Body, AttachedHeaders := [] }

/-- The error values stored in a `result` by `send` (main.go:120-187):

* `newRequestError` — the error returned by `http.NewRequest` (main.go:124);
* `timeoutAfter` — `fmt.Errorf("timeout after %d ms", r.Timeout)` (main.go:148);
* `transportError` — the error returned by `client.Do` (main.go:155);
* `readBodyError` — the error returned by `ioutil.ReadAll` (main.go:161);
* `assertionFailed` — `fmt.Errorf("assertion failed: \x27%s\x27", assert)`
  (main.go:180). -/
inductive sendError
  | newRequestError (msg : String)
  | timeoutAfter (ms : Int)
  | transportError (msg : String)
  | readBodyError (msg : String)
  | assertionFailed (pat : String)
deriving DecidableEq, Repr

/-- The `result` struct (main.go:38-43).  `ResponseTime` is a
`time.Duration`, i.e. a nanosecond count in a signed 64-bit integer,
modelled as `Int` (no arithmetic in the program brings it near overflow). -/
structure result where
  Request : request
  Response : String
  ResponseTime : Int
  Error : Option sendError
deriving DecidableEq, Repr

/-- Oracle describing how the external world behaved for one HTTP call in
`send` (main.go:120-165): `http.NewRequest` failed, the `time.After`
timer won the select, `client.Do` returned an error, `ioutil.ReadAll`
failed, or a body was fully read after `elapsedNs` nanoseconds. -/
inductive httpOutcome
  | newRequestErr (msg : String)
  | timedOut
  | transportErr (msg : String)
  | readBodyErr (msg : String)
  | ok (body : String) (elapsedNs : Int)
deriving DecidableEq, Repr

/-- Outcome of the assertion loop in `send` (main.go:178-183) together
with `assertion.Find` (request.go:62-67): all assertions matched, the
loop stopped at the first non-matching assertion, or
`regexp.MustCompile` panicked on a pattern rejected by the compiler. -/
inductive assertOutcome
  | allPass
  | failedAt (pat : String)
  | compileCrash (pat : String)
deriving DecidableEq, Repr

/-- The assertion loop of `send` (main.go:178-183).  For each assertion
in declared order, `assert.Find(str)` first runs
`regexp.MustCompile(string(a))` — which panics when `compiles` rejects
the pattern (request.go:65) — and then tests `re.Find(content) != nil`
(request.go:66), modelled by the `finds` oracle.  The loop returns at
the first non-matching assertion. -/
def runAssertions (compiles : String → Bool) (finds : String → String → Bool)
    (body : String) : List String → assertOutcome
  | [] => .allPass
  | p :: rest =>
    if compiles p = false then .compileCrash p
    else if finds p body = false then .failedAt p
    else runAssertions compiles finds body rest

/-- What one `send` task does to the result channel: it either sends
exactly one `result` value, or it panics inside `regexp.MustCompile` and
sends nothing (there is no recover in the program). -/
inductive sendOutcome
  | delivered (res : result)
  | panicked (pat : String)
deriving DecidableEq, Repr

/-- The dispatch task `send` (main.go:120-187) for one request, given the
oracles and the outcome of the external HTTP call:

* `http.NewRequest` error → `result{r, "", -1, err}` (main.go:124-127);
* timer fired first → `result{r, "", -1, timeout error}` (main.go:146-149);
* `client.Do` error → `result{r, "", -1, err}` (main.go:155-158);
* `ioutil.ReadAll` error → `result{r, "", -1, err}` (main.go:160-164);
* body read → run the assertion loop: a compile panic kills the task, a
  failed assertion yields `result{r, "", responseTime, assertion error}`
  (main.go:180), and otherwise
  `result{r, string(str), responseTime, nil}` (main.go:186). -/
def send (compiles : String → Bool) (finds : String → String → Bool)
    (r : request) (out : httpOutcome) : sendOutcome :=
  match out with
  | .newRequestErr msg =>
    .delivered { Request := r, Response := "", ResponseTime := -1, Error := some (.newRequestError msg) }
  | .timedOut =>
    .delivered { Request := r, Response := "", ResponseTime := -1, Error := some (.timeoutAfter r.Timeout) }
  | .transportErr msg =>
    .delivered { Request := r, Response := "", ResponseTime := -1, Error := some (.transportError msg) }
  | .readBodyErr msg =>
    .delivered { Request := r, Response := "", ResponseTime := -1, Error := some (.readBodyError msg) }
  | .ok body elapsedNs =>
    match runAssertions compiles finds body r.Assertions with
    | .compileCrash p => .panicked p
    | .failedAt p =>
      .delivered { Request := r, Response := "", ResponseTime := elapsedNs, Error := some (.assertionFailed p) }
    | .allPass =>
      .delivered { Request := r, Response := body, ResponseTime := elapsedNs, Error := none }

/-- The results a task makes available on the channel: one value when it
delivered, none when it panicked. -/
def deliveredResults : sendOutcome → List result
  | .delivered res => [res]
  | .panicked _ => []

/-- The millisecond count printed by `result.String` (main.go:54):
`r.ResponseTime/time.Millisecond` divides the nanosecond count by 10^6
with Go's `int64` division, which truncates toward zero — `Int.tdiv`. -/
def msOf (ns : Int) : Int :=
  Int.tdiv ns 1000000

/-- The message text of each error value, as produced by the `%v`
rendering in `result.String` (main.go:57). -/
def errorMessage : sendError → String
  | .newRequestError msg => msg
  | .timeoutAfter ms => "timeout after " ++ toString ms ++ " ms"
  | .transportError msg => msg
  | .readBodyError msg => msg
  | .assertionFailed pat => "assertion failed: \x27" ++ pat ++ "\x27"

/-- The formatter `result.String` (main.go:46-61): an `OK`/`FAIL` prefix
according to `r.Error == nil`, then `"%s (%d ms)"` with the name and the
truncated millisecond count, then `"; error: %v"` when an error is
present. -/
def resultString (res : result) : String :=
  (if res.Error.isNone then "OK    " else "FAIL  ") ++
    res.Request.Name ++ " (" ++ toString (msOf res.ResponseTime) ++ " ms)" ++
    (match res.Error with
     | none => ""
     | some e => "; error: " ++ errorMessage e)

/-- The outcomes of the HTTP call on which `send` gives up before any
response body exists: construction failure, timeout, transport error,
body-read failure. -/
def preBodyFailure : httpOutcome → Bool
  | .newRequestErr _ => true
  | .timedOut => true
  | .transportErr _ => true
  | .readBodyErr _ => true
  | .ok _ _ => false

/-- The probe succeeded: the HTTP call produced a fully read body and
every assertion pattern finds that body. -/
def probeSucceeds (finds : String → String → Bool) (r : request) (out : httpOutcome) : Prop :=
  ∃ body elapsedNs, out = .ok body elapsedNs ∧ ∀ p ∈ r.Assertions, finds p body = true

/-- The method `assertion.Validate` (request.go:55-58): it compiles the
pattern, throws the result away, and unconditionally returns
`fmt.Errorf("assertion regexp \x27%s\x27 cannot be compiled: %v", a, err)` —
also when `err` is nil, in which case `%v` prints `<nil>`.  The
`compileErr` argument is the error value returned by `regexp.Compile`. -/
def Validate (compileErr : Option String) (a : String) : Option String :=
  some ("assertion regexp \x27" ++ a ++ "\x27 cannot be compiled: " ++
    (match compileErr with
     | some m => m
     | none => "<nil>"))

/-- Compile oracle used for concrete instantiations: every pattern
compiles.  (All patterns appearing in those instantiations are plain
literals, which Go&rsquo;s regexp accepts.) -/
def alwaysCompiles : String → Bool :=
  fun _ => true

/-- Match oracle used for concrete instantiations: every pattern occurs
in every body. -/
def alwaysMatches : String → String → Bool :=
  fun _ _ => true

/-- Compile oracle modelling `regexp.Compile` on the concrete patterns
used below: the pattern `(` is rejected (Go reports
"missing closing )") and the remaining patterns, all plain literals,
compile. -/
def compilesExceptLoneParen : String → Bool :=
  fun p => !(p == "(")

/-- Match oracle used for concrete instantiations: a pattern occurs in
the body exactly when it is not the literal `absent`, modelling a
response body that contains every other literal involved. -/
def matchesExceptAbsent : String → String → Bool :=
  fun p _ => !(p == "absent")

/-- A concrete request carrying one header line, used to evaluate
`buildCall`. -/
def headeredReq : request :=
  { Name := "t1", URL := "http://x/", Method := "GET", Timeout := 50,
    Headers := ["Content-Type: application/json"], Assertions := [], Body := "hello" }

/-- A concrete request whose second assertion is the first failing one
and whose third assertion does not even compile. -/
def orderedAssertReq : request :=
  { Name := "t2", URL := "http://x/", Method := "GET", Timeout := 50,
    Headers := [], Assertions := ["ok", "absent", "("], Body := "" }

/-- A concrete request whose only assertion is the non-compiling
pattern `(`. -/
def badPatternReq : request :=
  { Name := "t3", URL := "http://x/", Method := "GET", Timeout := 50,
    Headers := [], Assertions := ["("], Body := "" }

/-- A concrete request with one compiling assertion, used for the
dispatch witnesses. -/
def simpleReq : request :=
  { Name := "t4", URL := "http://x/", Method := "GET", Timeout := 50,
    Headers := [], Assertions := ["ok"], Body := "ping" }

/-- The body phase appends the remaining stream to the body writer. -/
theorem bodyLoop_eq (l : List Char) : ∀ body, bodyLoop body l = body ++ l := by
  induction l with
  | nil => intro body; simp [bodyLoop]
  | cons b rest ih => intro body; simp [bodyLoop, ih]

/-- Scanning step on a byte that is not a line ending. -/
theorem scanFM_cons_other (fm : List Char) (b : Char) (rest : List Char)
    (hb : ¬(b = '\n' ∨ b = '\r')) :
    scanFM fm (b :: rest) = scanFM (fm ++ [b]) rest := by
  rw [scanFM, if_neg hb]

/-- Scanning step on a line ending whose next three bytes exist but are
not three dashes. -/
theorem scanFM_cons_nomatch (fm : List Char) (b : Char) (rest : List Char)
    (hb : b = '\n' ∨ b = '\r') (hlen : ¬(rest.length < 3))
    (hne : rest.take 3 ≠ ['-', '-', '-']) :
    scanFM fm (b :: rest) = scanFM (fm ++ [b]) rest := by
  rw [scanFM, if_pos hb, if_neg hlen, if_neg hne]

/-- Scanning step on a line ending followed by three dashes and a byte
that is not a line ending: the divider is recognized and everything from
that byte on becomes the body. -/
theorem scanFM_divider (fm : List Char) (b d1 : Char) (rest3 : List Char)
    (hb : b = '\n' ∨ b = '\r') (hd1 : ¬(d1 = '\r' ∨ d1 = '\n')) :
    scanFM fm (b :: '-' :: '-' :: '-' :: d1 :: rest3) = .ok (fm ++ [b]) (bodyLoop [] (d1 :: rest3)) := by
  rw [scanFM, if_pos hb, if_neg (by simp), if_pos (by simp)]
  simp [afterDivider, skipOneCrlf, if_neg hd1]

/-- On a stream with no line-ending byte the scanning phase never finds
a divider and reports the missing front matter. -/
theorem scanFM_no_crlf (l : List Char) (hl : ∀ c ∈ l, ¬(c = '\n' ∨ c = '\r')) :
    ∀ fm, scanFM fm l = .error .noFrontMatter := by
  induction l with
  | nil => intro fm; rfl
  | cons b rest ih =>
    intro fm
    rw [scanFM_cons_other fm b rest (hl b (by simp))]
    exact ih (fun c hc => hl c (by simp [hc])) (fm ++ [b])

/-- On a stream in which every line-ending byte is followed by at least
three bytes that are not three dashes, the scanning phase reports the
missing front matter. -/
theorem scanFM_goodTails (l : List Char) (h : l.tails.all goodTailB = true) :
    ∀ fm, scanFM fm l = .error .noFrontMatter := by
  induction l with
  | nil => intro fm; rfl
  | cons b rest ih =>
    intro fm
    rw [List.tails_cons, List.all_cons, Bool.and_eq_true] at h
    obtain ⟨hhead, htail⟩ := h
    by_cases hb : b = '\n' ∨ b = '\r'
    · rw [goodTailB, if_pos hb, Bool.and_eq_true, decide_eq_true_iff, decide_eq_true_iff] at hhead
      obtain ⟨hlen, hne⟩ := hhead
      rw [scanFM_cons_nomatch fm b rest hb (by omega) hne]
      exact ih htail (fm ++ [b])
    · rw [scanFM_cons_other fm b rest hb]
      exact ih htail (fm ++ [b])

/-- When the assertion loop reports that every assertion passed, each
pattern of the list occurs in the body. -/
theorem runAssertions_allPass (compiles : String → Bool) (finds : String → String → Bool)
    (body : String) (l : List String)
    (h : runAssertions compiles finds body l = .allPass) :
    ∀ q ∈ l, finds q body = true := by
  induction l with
  | nil => intro q hq; simp at hq
  | cons p rest ih =>
    intro q hq
    rw [runAssertions] at h
    by_cases hc : compiles p = false
    · rw [if_pos hc] at h; exact absurd h (by simp)
    · rw [if_neg hc] at h
      by_cases hf : finds p body = false
      · rw [if_pos hf] at h; exact absurd h (by simp)
      · rw [if_neg hf] at h
        rcases List.mem_cons.mp hq with rfl | hq
        · simpa using hf
        · exact ih h q hq

/-- When the assertion loop stops at a failing assertion, that pattern is
in the list and does not occur in the body. -/
theorem runAssertions_failedAt (compiles : String → Bool) (finds : String → String → Bool)
    (body : String) (l : List String) (q : String)
    (h : runAssertions compiles finds body l = .failedAt q) :
    q ∈ l ∧ finds q body = false := by
  induction l with
  | nil => simp [runAssertions] at h
  | cons p rest ih =>
    rw [runAssertions] at h
    by_cases hc : compiles p = false
    · rw [if_pos hc] at h; exact absurd h (by simp)
    · rw [if_neg hc] at h
      by_cases hf : finds p body = false
      · rw [if_pos hf] at h
        cases h
        exact ⟨by simp, hf⟩
      · rw [if_neg hf] at h
        obtain ⟨hmem, hff⟩ := ih h
        exact ⟨by simp [hmem], hff⟩

/-- When the assertion loop panics, the offending pattern is in the list
and does not compile. -/
theorem runAssertions_crash (compiles : String → Bool) (finds : String → String → Bool)
    (body : String) (l : List String) (q : String)
    (h : runAssertions compiles finds body l = .compileCrash q) :
    q ∈ l ∧ compiles q = false := by
  induction l with
  | nil => simp [runAssertions] at h
  | cons p rest ih =>
    rw [runAssertions] at h
    by_cases hc : compiles p = false
    · rw [if_pos hc] at h
      cases h
      exact ⟨by simp, hc⟩
    · rw [if_neg hc] at h
      by_cases hf : finds p body = false
      · rw [if_pos hf] at h; exact absurd h (by simp)
      · rw [if_neg hf] at h
        obtain ⟨hmem, hcc⟩ := ih h
        exact ⟨by simp [hmem], hcc⟩

/-- The assertion loop stops at the first failing assertion: whenever the
assertions before `p` all compile and match and `p` compiles but does not
match, the loop reports `p` — whatever comes after `p`. -/
theorem runAssertions_first_fail (compiles : String → Bool) (finds : String → String → Bool)
    (body : String) (pre post : List String) (p : String)
    (hpre : ∀ q ∈ pre, compiles q = true ∧ finds q body = true)
    (hc : compiles p = true) (hf : finds p body = false) :
    runAssertions compiles finds body (pre ++ p :: post) = .failedAt p := by
  induction pre with
  | nil =>
    rw [List.nil_append, runAssertions, if_neg (by simp [hc]), if_pos hf]
  | cons a pre2 ih =>
    obtain ⟨hac, haf⟩ := hpre a (by simp)
    rw [List.cons_append, runAssertions, if_neg (by simp [hac]), if_neg (by simp [haf])]
    exact ih (fun q hq => hpre q (by simp [hq]))

/-- The assertion loop panics at the first non-compiling assertion that
it reaches. -/
theorem runAssertions_first_crash (compiles : String → Bool) (finds : String → String → Bool)
    (body : String) (pre post : List String) (p : String)
    (hpre : ∀ q ∈ pre, compiles q = true ∧ finds q body = true)
    (hc : compiles p = false) :
    runAssertions compiles finds body (pre ++ p :: post) = .compileCrash p := by
  induction pre with
  | nil =>
    rw [List.nil_append, runAssertions, if_pos hc]
  | cons a pre2 ih =>
    obtain ⟨hac, haf⟩ := hpre a (by simp)
    rw [List.cons_append, runAssertions, if_neg (by simp [hac]), if_neg (by simp [haf])]
    exact ih (fun q hq => hpre q (by simp [hq]))

/-- A nonnegative nanosecond count below one million renders as zero
milliseconds under the truncating division of `result.String`. -/
theorem msOf_eq_zero (t : Int) (h0 : 0 ≤ t) (ht : t < 1000000) : msOf t = 0 := by
  rw [msOf, Int.tdiv_eq_ediv h0 (by norm_num)]
  exact Int.ediv_eq_zero_of_lt h0 ht

/-- Claim C2: the spec states that divider recognition accepts a divider
followed directly by end-of-stream, with parsing succeeding and an empty
body.  The code does not: after discarding the three dashes it performs
two `Peek(1)` calls and returns the peek error when the stream has ended
(request.go:101-103, 108-110), so a document ending right after the
dashes — the exact shape of the repository's own test
`TestNewRequestNoBody` — fails, and so does a document ending right after
the single `\n` that follows the dashes.  Only a two-byte line ending
such as `\r\n` before end-of-stream parses with an empty body. -/
theorem c2_divider_at_eof_is_rejected :
    splitDoc "ab\n---".toList = .error .peekError ∧
    splitDoc "ab\n---\n".toList = .error .peekError ∧
    splitDoc "ab\n---\r\n".toList = .ok "ab\n".toList [] :=
  ⟨by decide, by decide, by decide⟩

/-- Claim C3, counterexample: a document whose very first line is the
divider is claimed to have that divider recognized and to avoid the
NoFrontMatter failure; on the code the scan only checks for dashes after
a line-ending byte (request.go:91), so this document fails with
exactly the no-front-matter error. -/
theorem c3_counterexample :
    splitDoc "---\nThis is the data".toList = .error .noFrontMatter := by
  decide

/-- Claim C3, amended: a divider line at the very start of the stream is
never recognized; its bytes are consumed as metadata, and when the
remaining stream has no further line-ending byte (hence no further
divider candidate) and its first three bytes are not dashes, parsing
fails with NoFrontMatter. -/
theorem c3_divider_at_start_not_recognized (c1 c2 c3 : Char) (t : List Char)
    (hno : ∀ c ∈ c1 :: c2 :: c3 :: t, ¬(c = '\n' ∨ c = '\r'))
    (hne : [c1, c2, c3] ≠ ['-', '-', '-']) :
    splitDoc ('-' :: '-' :: '-' :: '\n' :: c1 :: c2 :: c3 :: t) = .error .noFrontMatter := by
  rw [splitDoc]
  rw [scanFM_cons_other _ _ _ (by decide)]
  rw [scanFM_cons_other _ _ _ (by decide)]
  rw [scanFM_cons_other _ _ _ (by decide)]
  rw [scanFM_cons_nomatch _ _ _ (Or.inl rfl) (by simp) (by simpa using hne)]
  exact scanFM_no_crlf _ hno _

/-- Witness for the amended C3 at a concrete document. -/
theorem c3_witness :
    (∀ c ∈ ['T', 'h', 'i', 's'], ¬(c = '\n' ∨ c = '\r')) ∧
    (['T', 'h', 'i'] ≠ ['-', '-', '-']) ∧
    splitDoc ('-' :: '-' :: '-' :: '\n' :: 'T' :: 'h' :: 'i' :: ['s']) = .error .noFrontMatter :=
  ⟨by decide, by decide,
    c3_divider_at_start_not_recognized 'T' 'h' 'i' ['s'] (by decide) (by decide)⟩

/-- Claim C4, counterexample: a line reading `----` is claimed not to be
a divider and to belong to the metadata segment; on the code the check
only peeks at the first three bytes after the line ending
(request.go:93-98), so the `----` line is taken as a divider, the
metadata segment ends before it, and its fourth dash starts the body. -/
theorem c4_counterexample :
    splitDoc "ab\n----\nX".toList = .ok "ab\n".toList "-\nX".toList := by
  decide

/-- Claim C4, amended: the stream is split at the first line whose first
three bytes are dashes; any further bytes of that line are not inspected
and become the start of the body (a non-line-ending byte right after the
dashes is left in place by the two skip steps). -/
theorem c4_three_dash_prefix_is_divider (c : Char) (s : List Char)
    (hc : ¬(c = '\r' ∨ c = '\n')) :
    splitDoc ('a' :: 'b' :: '\n' :: '-' :: '-' :: '-' :: c :: s) = .ok ['a', 'b', '\n'] (c :: s) := by
  rw [splitDoc]
  rw [scanFM_cons_other _ _ _ (by decide)]
  rw [scanFM_cons_other _ _ _ (by decide)]
  rw [scanFM_divider _ _ _ _ (Or.inl rfl) hc]
  rw [bodyLoop_eq]
  simp

/-- Witness for the amended C4: the fourth dash of a `----` line becomes
the first body byte. -/
theorem c4_witness :
    ¬(('-' : Char) = '\r' ∨ ('-' : Char) = '\n') ∧
    splitDoc ('a' :: 'b' :: '\n' :: '-' :: '-' :: '-' :: '-' :: "\nX".toList) =
      .ok ['a', 'b', '\n'] ('-' :: "\nX".toList) :=
  ⟨by decide, c4_three_dash_prefix_is_divider '-' "\nX".toList (by decide)⟩

/-- Claim C5, counterexample: a stream with no divider whose last
line-ending byte is followed by fewer than three bytes is claimed to fail
with NoFrontMatter; on the code the `Peek(3)` after that byte fails and
`newRequest` returns the distinct "invalid file format" error instead
(request.go:93-97). -/
theorem c5_counterexample :
    splitDoc "x\nab".toList = .error .invalidFileFormat ∧
    ParseErr.invalidFileFormat ≠ ParseErr.noFrontMatter :=
  ⟨by decide, by decide⟩

/-- Claim C5, amended: a stream in which no divider is ever found fails
with NoFrontMatter provided every line-ending byte is followed by at
least three bytes; when some line-ending byte is followed by fewer than
three bytes the parse fails with the invalid-file-format error instead. -/
theorem c5_no_divider_noFrontMatter (l : List Char)
    (h : l.tails.all goodTailB = true) :
    splitDoc l = .error .noFrontMatter :=
  scanFM_goodTails l h []

/-- Witness for the amended C5 at a concrete divider-free document. -/
theorem c5_witness :
    ("a\nbcd".toList.tails.all goodTailB = true) ∧
    splitDoc "a\nbcd".toList = .error .noFrontMatter :=
  ⟨by decide, c5_no_divider_noFrontMatter "a\nbcd".toList (by decide)⟩

/-- Claim C1: the spec states that the outgoing HTTP call attaches every
header line of the request; the code builds the call from method, url and
body only (main.go:122-123) and never writes a header into it — evaluated
here on a request that carries a header line, the outgoing call's
attached headers are empty. -/
theorem c1_headers_not_attached :
    (buildCall headeredReq).AttachedHeaders = [] ∧
    headeredReq.Headers = ["Content-Type: application/json"] ∧
    (buildCall headeredReq).Method = "GET" ∧
    (buildCall headeredReq).URL = "http://x/" ∧
    (buildCall headeredReq).BodyPayload = "hello" :=
  ⟨rfl, rfl, rfl, rfl, rfl⟩

/-- Claim C6: with a fully read body, `send` walks the assertions in
declared order and stops at the first one whose pattern does not occur in
the body, delivering a result whose error carries that pattern and whose
response is empty; the assertions after the failing one never influence
the outcome (they are quantified arbitrarily here, so the result is the
same even when they would crash if evaluated). -/
theorem c6_first_failing_assertion_wins (compiles : String → Bool)
    (finds : String → String → Bool) (r : request) (body : String) (elapsedNs : Int)
    (pre post : List String) (p : String)
    (hA : r.Assertions = pre ++ p :: post)
    (hpre : ∀ q ∈ pre, compiles q = true ∧ finds q body = true)
    (hc : compiles p = true) (hf : finds p body = false) :
    send compiles finds r (.ok body elapsedNs) =
      .delivered { Request := r, Response := "", ResponseTime := elapsedNs,
                   Error := some (.assertionFailed p) } := by
  simp only [send]
  rw [hA, runAssertions_first_fail compiles finds body pre post p hpre hc hf]

/-- Witness for C6: the second assertion is the first failing one and the
third does not even compile, yet the outcome is the assertion-failed
result for the second pattern. -/
theorem c6_witness :
    (orderedAssertReq.Assertions = ["ok"] ++ "absent" :: ["("]) ∧
    (∀ q ∈ ["ok"], compilesExceptLoneParen q = true ∧ matchesExceptAbsent q "resp" = true) ∧
    compilesExceptLoneParen "absent" = true ∧
    matchesExceptAbsent "absent" "resp" = false ∧
    send compilesExceptLoneParen matchesExceptAbsent orderedAssertReq (.ok "resp" 7) =
      .delivered { Request := orderedAssertReq, Response := "", ResponseTime := 7,
                   Error := some (.assertionFailed "absent") } :=
  ⟨by decide, by decide, by decide, by decide,
    c6_first_failing_assertion_wins compilesExceptLoneParen matchesExceptAbsent
      orderedAssertReq "resp" 7 ["ok"] ["("] "absent"
      (by decide) (by decide) (by decide) (by decide)⟩

/-- Claim C7: a dispatch task whose assertions all compile delivers
exactly one result on every control path — construction failure, timeout,
transport error, body-read failure, assertion failure, success —, the
result's error is present exactly when the probe did not succeed, and the
response string is empty on every failing outcome. -/
theorem c7_exactly_one_result (compiles : String → Bool) (finds : String → String → Bool)
    (r : request) (out : httpOutcome)
    (hcomp : ∀ p ∈ r.Assertions, compiles p = true) :
    ∃ res, send compiles finds r out = .delivered res ∧
      deliveredResults (send compiles finds r out) = [res] ∧
      ((res.Error = none) ↔ probeSucceeds finds r out) ∧
      (res.Error ≠ none → res.Response = "") := by
  cases out with
  | newRequestErr msg =>
    refine ⟨_, rfl, rfl, ⟨fun h => by simp at h, ?_⟩, fun _ => rfl⟩
    rintro ⟨body, el, heq, -⟩
    cases heq
  | timedOut =>
    refine ⟨_, rfl, rfl, ⟨fun h => by simp at h, ?_⟩, fun _ => rfl⟩
    rintro ⟨body, el, heq, -⟩
    cases heq
  | transportErr msg =>
    refine ⟨_, rfl, rfl, ⟨fun h => by simp at h, ?_⟩, fun _ => rfl⟩
    rintro ⟨body, el, heq, -⟩
    cases heq
  | readBodyErr msg =>
    refine ⟨_, rfl, rfl, ⟨fun h => by simp at h, ?_⟩, fun _ => rfl⟩
    rintro ⟨body, el, heq, -⟩
    cases heq
  | ok body el =>
    cases hrun : runAssertions compiles finds body r.Assertions with
    | compileCrash q =>
      obtain ⟨hmem, hcq⟩ := runAssertions_crash compiles finds body r.Assertions q hrun
      rw [hcomp q hmem] at hcq
      cases hcq
    | failedAt q =>
      obtain ⟨hmem, hfq⟩ := runAssertions_failedAt compiles finds body r.Assertions q hrun
      refine ⟨_, by simp only [send]; rw [hrun], by simp only [deliveredResults, send]; rw [hrun], ⟨fun h => by simp at h, ?_⟩, fun _ => rfl⟩
      rintro ⟨body2, el2, heq, hall⟩
      cases heq
      rw [hall q hmem] at hfq
      cases hfq
    | allPass =>
      refine ⟨_, by simp only [send]; rw [hrun], by simp only [deliveredResults, send]; rw [hrun], ⟨fun _ => ?_, fun _ => rfl⟩, fun h => absurd rfl h⟩
      exact ⟨body, el, rfl, runAssertions_allPass compiles finds body r.Assertions hrun⟩

/-- Witness for C7 on the timeout path. -/
theorem c7_witness :
    (∀ p ∈ simpleReq.Assertions, alwaysCompiles p = true) ∧
    (∃ res, send alwaysCompiles alwaysMatches simpleReq .timedOut = .delivered res ∧
      deliveredResults (send alwaysCompiles alwaysMatches simpleReq .timedOut) = [res] ∧
      ((res.Error = none) ↔ probeSucceeds alwaysMatches simpleReq .timedOut) ∧
      (res.Error ≠ none → res.Response = "")) :=
  ⟨by decide, c7_exactly_one_result alwaysCompiles alwaysMatches simpleReq .timedOut (by decide)⟩

/-- Claim C8, counterexample: a request whose only assertion is the
non-compiling pattern `(` is claimed to produce a probe failure with a
distinct AssertionCompileError kind; on the code `assertion.Find` uses
`regexp.MustCompile` (request.go:65), which panics, so the dispatch task
crashes and delivers nothing — there is no compile-error result at all. -/
theorem c8_counterexample :
    send compilesExceptLoneParen alwaysMatches badPatternReq (.ok "hello" 5) = .panicked "(" ∧
    deliveredResults (send compilesExceptLoneParen alwaysMatches badPatternReq (.ok "hello" 5)) = [] :=
  ⟨by decide, by decide⟩

/-- Claim C8, amended: when execution reaches a syntactically invalid
assertion pattern (all earlier assertions compiled and matched), the
dispatch task panics inside `regexp.MustCompile` and delivers no result;
no compile-error result kind exists. -/
theorem c8_invalid_pattern_panics (compiles : String → Bool) (finds : String → String → Bool)
    (r : request) (body : String) (elapsedNs : Int) (pre post : List String) (p : String)
    (hA : r.Assertions = pre ++ p :: post)
    (hpre : ∀ q ∈ pre, compiles q = true ∧ finds q body = true)
    (hc : compiles p = false) :
    send compiles finds r (.ok body elapsedNs) = .panicked p := by
  simp only [send]
  rw [hA, runAssertions_first_crash compiles finds body pre post p hpre hc]

/-- Witness for the amended C8 at a concrete request. -/
theorem c8_witness :
    (badPatternReq.Assertions = [] ++ "(" :: []) ∧
    compilesExceptLoneParen "(" = false ∧
    send compilesExceptLoneParen alwaysMatches badPatternReq (.ok "x" 3) = .panicked "(" :=
  ⟨by decide, by decide,
    c8_invalid_pattern_panics compilesExceptLoneParen alwaysMatches badPatternReq "x" 3
      [] [] "(" (by decide) (by decide) (by decide)⟩

/-- Claim C9: `Validate` wraps the compile error into a formatted error
unconditionally (request.go:55-58), so it returns a non-nil error for
every pattern — also when compilation succeeded and the compile error is
nil. -/
theorem c9_validate_always_returns_error (compileErr : Option String) (a : String) :
    (Validate compileErr a).isSome = true :=
  rfl

/-- Claim C10: every failure result produced before a response body is
obtained carries the sentinel response time of -1 nanosecond
(main.go:125, 148, 156, 162), the formatter's truncating division by one
million renders it as zero milliseconds (main.go:54), and the rendered
line is byte-for-byte identical to the one produced for any genuine
non-negative sub-millisecond response time. -/
theorem c10_sentinel_renders_like_submillisecond (compiles : String → Bool)
    (finds : String → String → Bool) (r : request) (out : httpOutcome)
    (h : preBodyFailure out = true) :
    ∃ res, send compiles finds r out = .delivered res ∧
      res.ResponseTime = -1 ∧ msOf res.ResponseTime = 0 ∧
      ∀ t : Int, 0 ≤ t → t < 1000000 →
        resultString { res with ResponseTime := t } = resultString res := by
  have h2 : msOf (-1) = 0 := by decide
  cases out with
  | ok body el => simp [preBodyFailure] at h
  | newRequestErr msg =>
    refine ⟨_, rfl, rfl, h2, fun t h0 ht => ?_⟩
    simp [resultString, msOf_eq_zero t h0 ht, h2]
  | timedOut =>
    refine ⟨_, rfl, rfl, h2, fun t h0 ht => ?_⟩
    simp [resultString, msOf_eq_zero t h0 ht, h2]
  | transportErr msg =>
    refine ⟨_, rfl, rfl, h2, fun t h0 ht => ?_⟩
    simp [resultString, msOf_eq_zero t h0 ht, h2]
  | readBodyErr msg =>
    refine ⟨_, rfl, rfl, h2, fun t h0 ht => ?_⟩
    simp [resultString, msOf_eq_zero t h0 ht, h2]

/-- Witness for C10 on the transport-error path. -/
theorem c10_witness :
    preBodyFailure (.transportErr "connection refused") = true ∧
    (∃ res, send alwaysCompiles alwaysMatches simpleReq (.transportErr "connection refused") = .delivered res ∧
      res.ResponseTime = -1 ∧ msOf res.ResponseTime = 0 ∧
      ∀ t : Int, 0 ≤ t → t < 1000000 →
        resultString { res with ResponseTime := t } = resultString res) :=
  ⟨by decide,
    c10_sentinel_renders_like_submillisecond alwaysCompiles alwaysMatches simpleReq
      (.transportErr "connection refused") (by decide)⟩

end Warden
